import Mathlib

/-!
Verification development for the Baichuan protocol engine of the
reolink-aio TypeScript client.  The definitions below are shallow
embeddings of the functions in the protocol file
(class Baichuan: decrypt, send retry policy, header framing, key
derivation, logout/subscription state machine, push dispatch and the
callback registry).  Machine integers are modelled as Nat with explicit
reductions modulo 2^32 where the source uses 32-bit writes; fallible
operations return Except; external primitives whose sources are not in
the snapshot (the legacy cipher, AES, UTF-8 decoding of raw bytes) are
either modelled from the specification or passed in as explicit
function parameters, exactly at the call boundary the source uses.
-/

namespace Reolink

/-- Byte at index `i` of a byte list, 0 when out of range (frames handled
by the client always carry a full header, so the default is never hit on
real input). -/
def byteAt (data : List Nat) (i : Nat) : Nat := data.getD i 0

/-- Model of Buffer.readUInt32LE: little-endian 32-bit read at `off`. -/
def readUInt32LE (data : List Nat) (off : Nat) : Nat :=
  byteAt data off + 256 * byteAt data (off + 1) +
    65536 * byteAt data (off + 2) + 16777216 * byteAt data (off + 3)

/-- Model of Buffer.writeUInt32LE: the four little-endian bytes of `n`
(reduced mod 2^32 by the byte extraction). -/
def u32le (n : Nat) : List Nat :=
  [n % 256, n / 256 % 256, n / 65536 % 256, n / 16777216 % 256]

/-- Lower-case hex digit for a nibble, as Buffer.toString("hex") emits. -/
def hexDigit (n : Nat) : Char :=
  if n < 10 then Char.ofNat (48 + n) else Char.ofNat (87 + n)

/-- Two lower-case hex digits of one byte. -/
def byteHex (b : Nat) : String :=
  String.mk [hexDigit (b / 16 % 16), hexDigit (b % 16)]

/-- Model of Buffer.toString("hex") on a byte list. -/
def bytesHex (l : List Nat) : String :=
  l.foldr (fun b acc => byteHex b ++ acc) ""

/-- Model of JavaScript String.prototype.startsWith (kernel-computable,
unlike String.startsWith which does not reduce definitionally). -/
def strStartsWith (s pre : String) : Bool := pre.toList.isPrefixOf s.toList

/-- Decidable equality for Except results, used to evaluate concrete
runs of the embedded operations. -/
instance {e a : Type} [DecidableEq e] [DecidableEq a] : DecidableEq (Except e a) := fun x y =>
  match x, y with
  | .ok u, .ok v =>
    if h : u = v then isTrue (by rw [h]) else isFalse (by simp [h])
  | .ok _, .error _ => isFalse (by simp)
  | .error _, .ok _ => isFalse (by simp)
  | .error u, .error v =>
    if h : u = v then isTrue (by rw [h]) else isFalse (by simp [h])

/-- Encoding type tag passed to send/decrypt (EncType in util.ts). -/
inductive EncType where
  | BC
  | AES
  deriving DecidableEq, Repr

/--
External cipher/decoding primitives used by Baichuan.decrypt, passed as
explicit functions.  `bc` is decryptBaichuan(encBody, offset) from
util.ts (not in the snapshot; the spec describes it as a total
byte-for-byte offset-keyed stream cipher yielding a string), `aes` is
the AES-128-CFB decryption under the session key when one is
established (`none` models `this.aesKey === null`, in which case
aesDecrypt throws and decrypt's catch falls back to the legacy cipher),
and `utf8` is Buffer.toString("utf8") (total, replacement characters on
invalid sequences).
-/
structure DecryptCtx where
  bc : List Nat → Nat → String
  aes : Option (List Nat → String)
  utf8 : List Nat → String

/-- Errors thrown by Baichuan.decrypt: InvalidContentTypeError carries
the reported encoding type and the whole frame; UnexpectedDataError
carries the header bytes, the first 5 characters of the final decode
attempt and the first 5 bytes of the encrypted payload, exactly as the
source interpolates them into the message. -/
inductive DecryptErr where
  | invalidContentType (recEncType : String) (data : List Nat)
  | unexpectedData (header : List Nat) (decStart : String) (encStart : List Nat)
  deriving DecidableEq, Repr

/-- Shallow embedding of Baichuan.decrypt (part_002 lines 419-496).
The branch structure, conditions and fallback order are translated
clause by clause from the source; the try/catch around aesDecrypt is
modelled by the `none` case of `ctx.aes` (the only throwing path of
aesDecrypt is the missing-key guard). -/
def decrypt (ctx : DecryptCtx) (data : List Nat) (lenHeader : Nat)
    (encType : EncType) : Except DecryptErr String :=
  let recEncOffset := readUInt32LE data 12
  let recEncType := byteHex (byteAt data 16) ++ byteHex (byteAt data 17)
  let encBody := data.drop lenHeader
  let header := data.take lenHeader
  if encBody.isEmpty then .ok ""
  else
    let is24ByteHeader := lenHeader == 24
    let firstTry : Except DecryptErr String :=
      if (lenHeader == 20 && (recEncType == "01dd" || recEncType == "12dd"))
          || encType == EncType.BC then
        .ok (ctx.bc encBody recEncOffset)
      else if (lenHeader == 20 && (recEncType == "02dd" || recEncType == "03dd"))
          || (is24ByteHeader && ctx.aes.isSome) then
        .ok (match ctx.aes with
          | some aesDec =>
            let r := aesDec encBody
            if strStartsWith r "<?xml" then r else ctx.bc encBody recEncOffset
          | none => ctx.bc encBody recEncOffset)
      else if recEncType == "00dd" || is24ByteHeader then
        .ok (let r := ctx.bc encBody recEncOffset
             if strStartsWith r "<?xml" then r else ctx.utf8 encBody)
      else
        .error (.invalidContentType recEncType data)
    match firstTry with
    | .error e => .error e
    | .ok r0 =>
      if strStartsWith r0 "<?xml" then .ok r0
      else
        let r1 := if recEncType == "00dd" then ctx.utf8 encBody else r0
        if strStartsWith r1 "<?xml" then .ok r1
        else
          let r2 := ctx.bc encBody recEncOffset
          if strStartsWith r2 "<?xml" then .ok r2
          else .error (.unexpectedData header (r2.take 5) (encBody.take 5))

/--
The decode policy exactly as the specification words it (spec 4.2):
(a) the cipher the header declares first, (b) AES when a key is
available, (c) the legacy cipher, (d) plaintext — stopping at the first
result that begins with the envelope prologue, and failing with a
diagnostic error when no branch yields it.  Written only to be compared
with `decrypt`, the embedding of the source.
-/
def specDecryptChain (ctx : DecryptCtx) (data : List Nat) (lenHeader : Nat) :
    Except DecryptErr String :=
  let recEncOffset := readUInt32LE data 12
  let recEncType := byteHex (byteAt data 16) ++ byteHex (byteAt data 17)
  let encBody := data.drop lenHeader
  let header := data.take lenHeader
  if encBody.isEmpty then .ok ""
  else
    let declared : Option EncType :=
      if lenHeader == 20 && (recEncType == "01dd" || recEncType == "12dd") then
        some EncType.BC
      else if lenHeader == 20 && (recEncType == "02dd" || recEncType == "03dd") then
        some EncType.AES
      else none
    let attemptOf : EncType → Option String := fun t =>
      match t with
      | EncType.BC => some (ctx.bc encBody recEncOffset)
      | EncType.AES => ctx.aes.map (fun f => f encBody)
    let chain : List (Option String) :=
      [declared.bind attemptOf,
       ctx.aes.map (fun f => f encBody),
       some (ctx.bc encBody recEncOffset),
       some (ctx.utf8 encBody)]
    match chain.filterMap id |>.find? (fun r => strStartsWith r "<?xml") with
    | some r => .ok r
    | none =>
      .error (.unexpectedData header ((ctx.bc encBody recEncOffset).take 5)
        (encBody.take 5))

/--
Classification of a JavaScript error caught by Baichuan.send's retry
handler (part_002 lines 358-374): `isApi`/`rspCode` model
`err instanceof ApiError && err.rspCode`, `isTimeout` models
`err instanceof ReolinkTimeoutError`, and `msgHasConnection` models
`err instanceof Error && err.message.includes("Connection")`.
-/
structure SendErr where
  isApi : Bool := false
  rspCode : Nat := 0
  isTimeout : Bool := false
  msgHasConnection : Bool := false
  deriving DecidableEq, Repr

/-- The three retry branches of Baichuan.send's catch block, in source
order; `retry` is the already-decremented budget (the source does
`retry = retry - 1` on entry). -/
def shouldRetry (e : SendErr) (retry : Nat) (cmdId : Nat) : Bool :=
  if e.isApi && e.rspCode == 400 && decide (0 < retry) then true
  else if e.isTimeout && decide (0 < retry) && cmdId != 2 then true
  else if e.msgHasConnection && decide (0 < retry) && cmdId != 2 then true
  else false

/--
Shallow embedding of the retry loop of Baichuan.send (part_002 lines
214-224 and 358-379).  The network is abstracted by `out`, giving the
outcome of awaiting the response on the n-th attempt; the value
returned is the number of attempts actually performed paired with the
final outcome.  Retrying recurses with the same command and the
decremented budget, exactly as `return await this.send(..., retry)`
does after `retry = retry - 1`.  The recursion is structural on the
budget; the budget-0 case returns the error directly because every
branch of shouldRetry requires a positive decremented budget (the
lemma shouldRetry_zero below), so no retry can fire there.
-/
def sendSim (out : Nat → Except SendErr String) (cmdId : Nat) :
    Nat → Nat → Nat × Except SendErr String
  | 0, attempt =>
    match out attempt with
    | .ok d => (1, .ok d)
    | .error e => (1, .error e)
  | retry + 1, attempt =>
    match out attempt with
    | .ok d => (1, .ok d)
    | .error e =>
      if shouldRetry e retry cmdId then
        let r := sendSim out cmdId retry (attempt + 1)
        (r.1 + 1, r.2)
      else (1, .error e)

/-- RETRY_ATTEMPTS (part_002 line 38): the default retry budget. -/
def RETRY_ATTEMPTS : Nat := 3

/-- The 24-byte response-class ("1464") header built by Baichuan.send
(part_002 lines 271-281): magic f0debc0a, then cmdId, messLen and
messId as little-endian u32, a 2-byte zero status code, the class tag
bytes 0x14 0x64, and the payload offset as little-endian u32. -/
def header1464 (cmdId messLen messId payloadOffset : Nat) : List Nat :=
  [0xf0, 0xde, 0xbc, 0x0a] ++ u32le cmdId ++ u32le messLen ++ u32le messId ++
    [0x00, 0x00] ++ [0x14, 0x64] ++ u32le payloadOffset

/-- The payload-length value Baichuan.send writes into the header
(part_002 line 248): `ext.length + body.length`, the JavaScript string
lengths (UTF-16 code units; for the basic-plane strings the client
builds, Lean's codepoint count coincides). -/
def messLenOf (ext body : String) : Nat := ext.length + body.length

/-- The payload-offset value Baichuan.send writes (part_002 line 249):
`ext.length`. -/
def payloadOffsetOf (ext : String) : Nat := ext.length

/-- Modelled from the spec: the byte length of the encrypted form of a
string under either cipher.  The AES-128-CFB transform and the legacy
cipher (encryptBaichuan in util.ts, not in the snapshot) both "produce
ciphertext of identical length to the input" (spec 4.1), the input
being the UTF-8 bytes of the string (aesEncrypt calls
cipher.update(body, "utf8")). -/
def encryptedLen (s : String) : Nat := s.utf8ByteSize

/-- UTF-8 encoding of one Unicode code point as bytes. -/
def utf8EncChar (c : Nat) : List Nat :=
  if c < 128 then [c]
  else if c < 2048 then [192 + c / 64, 128 + c % 64]
  else if c < 65536 then [224 + c / 4096, 128 + c / 64 % 64, 128 + c % 64]
  else [240 + c / 262144, 128 + c / 4096 % 64, 128 + c / 64 % 64, 128 + c % 64]

/-- UTF-8 bytes of a string (what `Buffer.from(s, "utf8")` holds). -/
def strUtf8 (s : String) : List Nat :=
  s.toList.foldr (fun c acc => utf8EncChar c.toNat ++ acc) []

/-- 32-bit left rotation. -/
def rotl32 (x n : Nat) : Nat :=
  ((x <<< n) ||| (x >>> (32 - n))) % 4294967296

/-- The 64 MD5 sine-derived round constants. -/
def md5K : List Nat :=
  [0xd76aa478, 0xe8c7b756, 0x242070db, 0xc1bdceee,
   0xf57c0faf, 0x4787c62a, 0xa8304613, 0xfd469501,
   0x698098d8, 0x8b44f7af, 0xffff5bb1, 0x895cd7be,
   0x6b901122, 0xfd987193, 0xa679438e, 0x49b40821,
   0xf61e2562, 0xc040b340, 0x265e5a51, 0xe9b6c7aa,
   0xd62f105d, 0x02441453, 0xd8a1e681, 0xe7d3fbc8,
   0x21e1cde6, 0xc33707d6, 0xf4d50d87, 0x455a14ed,
   0xa9e3e905, 0xfcefa3f8, 0x676f02d9, 0x8d2a4c8a,
   0xfffa3942, 0x8771f681, 0x6d9d6122, 0xfde5380c,
   0xa4beea44, 0x4bdecfa9, 0xf6bb4b60, 0xbebfbc70,
   0x289b7ec6, 0xeaa127fa, 0xd4ef3085, 0x04881d05,
   0xd9d4d039, 0xe6db99e5, 0x1fa27cf8, 0xc4ac5665,
   0xf4292244, 0x432aff97, 0xab9423a7, 0xfc93a039,
   0x655b59c3, 0x8f0ccc92, 0xffeff47d, 0x85845dd1,
   0x6fa87e4f, 0xfe2ce6e0, 0xa3014314, 0x4e0811a1,
   0xf7537e82, 0xbd3af235, 0x2ad7d2bb, 0xeb86d391]

/-- The 64 MD5 per-round left-rotation amounts. -/
def md5S : List Nat :=
  [7, 12, 17, 22, 7, 12, 17, 22, 7, 12, 17, 22, 7, 12, 17, 22,
   5, 9, 14, 20, 5, 9, 14, 20, 5, 9, 14, 20, 5, 9, 14, 20,
   4, 11, 16, 23, 4, 11, 16, 23, 4, 11, 16, 23, 4, 11, 16, 23,
   6, 10, 15, 21, 6, 10, 15, 21, 6, 10, 15, 21, 6, 10, 15, 21]

/-- Running MD5 state: four 32-bit words. -/
structure MD5State where
  a : Nat
  b : Nat
  c : Nat
  d : Nat
  deriving DecidableEq, Repr

/-- One MD5 round over the 16 message words `M`. -/
def md5Round (M : List Nat) (st : MD5State) (i : Nat) : MD5State :=
  let B := st.b
  let C := st.c
  let D := st.d
  let FG : Nat × Nat :=
    if i < 16 then ((B &&& C) ||| ((B ^^^ 4294967295) &&& D), i)
    else if i < 32 then ((D &&& B) ||| ((D ^^^ 4294967295) &&& C), (5 * i + 1) % 16)
    else if i < 48 then (B ^^^ C ^^^ D, (3 * i + 5) % 16)
    else (C ^^^ (B ||| (D ^^^ 4294967295)), (7 * i) % 16)
  let F2 := (FG.1 + st.a + md5K.getD i 0 + M.getD FG.2 0) % 4294967296
  { a := D, d := C, c := B, b := (B + rotl32 F2 (md5S.getD i 0)) % 4294967296 }

/-- Process one 64-byte chunk. -/
def md5Chunk (h : MD5State) (chunk : List Nat) : MD5State :=
  let M := (List.range 16).map (fun j => readUInt32LE chunk (4 * j))
  let st := (List.range 64).foldl (md5Round M) h
  { a := (h.a + st.a) % 4294967296, b := (h.b + st.b) % 4294967296,
    c := (h.c + st.c) % 4294967296, d := (h.d + st.d) % 4294967296 }

/-- MD5 padding: 0x80, zeros to 56 mod 64, then the bit length as a
little-endian 64-bit integer. -/
def md5Pad (msg : List Nat) : List Nat :=
  let len := msg.length
  let padLen := (120 - (len + 1) % 64) % 64
  msg ++ [0x80] ++ List.replicate padLen 0 ++
    u32le (len * 8) ++ u32le (len * 8 / 4294967296)

/-- Split a byte list into 64-byte chunks (structural recursion on a
fuel bound so the kernel can evaluate it; `fuel = l.length` always
suffices because every step consumes at least one byte). -/
def chunks64Go : Nat → List Nat → List (List Nat)
  | 0, _ => []
  | _, [] => []
  | fuel + 1, l => l.take 64 :: chunks64Go fuel (l.drop 64)

/-- Split a byte list into 64-byte chunks. -/
def chunks64 (l : List Nat) : List (List Nat) := chunks64Go l.length l

/-- The 16 MD5 digest bytes of a byte message. -/
def md5Bytes (msg : List Nat) : List Nat :=
  let init : MD5State :=
    { a := 0x67452301, b := 0xefcdab89, c := 0x98badcfe, d := 0x10325476 }
  let fin := (chunks64 (md5Pad msg)).foldl md5Chunk init
  u32le fin.a ++ u32le fin.b ++ u32le fin.c ++ u32le fin.d

/-- Upper-case hex digit for a nibble. -/
def hexDigitU (n : Nat) : Char :=
  if n < 10 then Char.ofNat (48 + n) else Char.ofNat (55 + n)

/-- Two upper-case hex digits of one byte. -/
def byteHexU (b : Nat) : String :=
  String.mk [hexDigitU (b / 16 % 16), hexDigitU (b % 16)]

/-- Modelled from the spec: md5StrModern of util.ts (not in the
snapshot), "a keyed hash" over a string (spec 3, 4.1), realised as the
MD5 hex digest of the string's UTF-8 bytes; upper case is a modelling
choice and no claim below depends on the digit case. -/
def md5StrModern (s : String) : String :=
  (md5Bytes (strUtf8 s)).foldr (fun b acc => byteHexU b ++ acc) ""

/-- The AES session key derived by Baichuan.getNonce (part_002 line
576): the first 16 characters of the keyed hash of
nonce ++ "-" ++ password (each character an ASCII hex digit, hence one
byte of the Buffer the source builds from it). -/
def deriveAesKey (nonce password : String) : String :=
  (md5StrModern (nonce ++ "-" ++ password)).take 16

/--
The session/subscription fields of the Baichuan class (part_002 lines
65-89) that logout, subscribeEvents, unsubscribeEvents, closeCallback
and parseXml read or write.  `transport`/`protocol` record whether the
corresponding references are non-null with a live socket, `keepalive`
whether the keepalive interval timer is running (keepaliveTask is not
null), and `timeConnectionLost` the seconds timestamp recorded on
connection loss.
-/
structure BcState where
  loggedIn : Bool
  subscribed : Bool
  eventsActive : Bool
  keepalive : Bool
  transport : Bool
  protocol : Bool
  nonce : Option String
  aesKey : Option String
  userHash : Option String
  passwordHash : Option String
  timeConnectionLost : Int
  deriving DecidableEq, Repr

/-- Externally visible effects performed by logout. -/
inductive LogoutEffect where
  | sendLogout
  | closeTransport
  deriving DecidableEq, Repr

/-- Shallow embedding of Baichuan.logout (part_002 lines 698-731):
returns the post state and the list of wire/socket effects performed.
The failed-send and failed-close paths only log, so they do not change
the effect trace shape. -/
def logout (s : BcState) : BcState × List LogoutEffect :=
  if s.subscribed then (s, [])
  else
    let eff :=
      if s.loggedIn && s.transport && s.protocol then
        [LogoutEffect.sendLogout, LogoutEffect.closeTransport]
      else []
    ({ s with
        loggedIn := false
        eventsActive := false
        transport := false
        protocol := false
        nonce := none
        aesKey := none
        userHash := none
        passwordHash := none }, eff)

/-- Shallow embedding of Baichuan.subscribeEvents (part_002 lines
771-805).  `loginOk` abstracts whether the awaited login() resolves or
rejects; a rejected login propagates before any subscription state is
touched.  On success login leaves loggedIn set and a live connection. -/
def subscribeEvents (s : BcState) (loginOk : Bool) : BcState :=
  if s.subscribed then s
  else
    let s1 := if !s.transport then { s with loggedIn := false } else s
    if !loginOk then s1
    else
      { s1 with
        loggedIn := true
        transport := true
        protocol := true
        subscribed := true
        eventsActive := true
        keepalive := true }

/-- Shallow embedding of Baichuan.unsubscribeEvents (part_002 lines
810-818): clear the subscription flags, cancel the keepalive timer,
then log out. -/
def unsubscribeEvents (s : BcState) : BcState × List LogoutEffect :=
  logout { s with subscribed := false, eventsActive := false, keepalive := false }

/-- Shallow embedding of Baichuan.closeCallback (part_002 lines
536-552): the connection-closed callback, `now` being the current time
in seconds. -/
def closeCallback (s : BcState) (now : Int) : BcState :=
  { s with
    loggedIn := false
    eventsActive := false
    timeConnectionLost := if s.subscribed then now else s.timeConnectionLost }

/-- The subscription-flag effect of Baichuan.parseXml on a cmd_id 33
alarm event (part_002 lines 866-871): events are marked active only
while subscribed. -/
def parseXmlFlags (s : BcState) : BcState :=
  if !s.eventsActive && s.subscribed then { s with eventsActive := true } else s

/-- Shallow embedding of the eventsActive getter (part_002 lines
945-947). -/
def eventsActiveValue (s : BcState) (now : Int) : Bool :=
  s.eventsActive && decide (now - s.timeConnectionLost > 120)

/-- The subscription invariant of the spec data model: the keepalive
timer runs iff subscribed, and eventsActive only while subscribed. -/
def SubInv (s : BcState) : Prop :=
  s.keepalive = s.subscribed ∧ (s.eventsActive = true → s.subscribed = true)

/-- Insertion-order-preserving association-list update, the model of
JavaScript Map.prototype.set (an existing key keeps its position). -/
def mapSet {α β : Type} [BEq α] (k : α) (v : β) : List (α × β) → List (α × β)
  | [] => [(k, v)]
  | (k', v') :: rest =>
    if k' == k then (k', v) :: rest else (k', v') :: mapSet k v rest

/-- Map.prototype.get with a default for a missing key. -/
def mapGetD {α β : Type} [BEq α] (l : List (α × β)) (k : α) (d : β) : β :=
  match l.find? (fun p => p.1 == k) with
  | some p => p.2
  | none => d

/-- The callback registry `extCallback` (part_002 line 90): cmd_id
(null = registered for any) to channel (null = any) to callbackId to
callback.  The callback itself is modelled by its outcome when invoked:
`Except.error` is a thrown exception carrying its message. -/
def CbRegistry : Type := List (Option Nat × List (Option Int × List (String × Except String Unit)))

/-- Shallow embedding of Baichuan.registerCallback (part_002 lines
736-749): create-if-absent nested maps, then set (overwriting an
existing callbackId in place). -/
def registerCallback (regs : CbRegistry) (callbackId : String)
    (callback : Except String Unit) (cmdId : Option Nat) (channel : Option Int) :
    CbRegistry :=
  let cmdCallbacks := mapGetD regs cmdId []
  let channelCallbacks := mapGetD cmdCallbacks channel []
  mapSet cmdId (mapSet channel (mapSet callbackId callback channelCallbacks) cmdCallbacks) regs

/-- The inner map Baichuan.executeCallbacks iterates for a key:
`extCallback.get(cmdId)?.get(channel)`, empty when either lookup
misses (the source returns early). -/
def callbacksFor (regs : CbRegistry) (cmdId : Option Nat) (channel : Option Int) :
    List (String × Except String Unit) :=
  mapGetD (mapGetD regs cmdId []) channel []

/-- The loop body of Baichuan.executeCallbacks (part_002 lines
935-941): each callback is invoked inside try/catch, a thrown exception
is logged and swallowed, and iteration continues.  Returns the ids
invoked in order; an `Except.error` result would model an exception
escaping the loop, which the catch prevents. -/
def runCallbackList : List (String × Except String Unit) → Except String (List String)
  | [] => .ok []
  | (callbackId, outcome) :: rest =>
    -- try: callback(); catch: debugLog — the thrown value is dropped
    -- either way, so both outcome cases continue with the next entry.
    match outcome with
    | .ok _ =>
      match runCallbackList rest with
      | .ok ids => .ok (callbackId :: ids)
      | .error e => .error e
    | .error _ =>
      match runCallbackList rest with
      | .ok ids => .ok (callbackId :: ids)
      | .error e => .error e

/-- Shallow embedding of Baichuan.executeCallbacks (part_002 lines
928-942). -/
def executeCallbacks (regs : CbRegistry) (cmdId : Option Nat) (channel : Option Int) :
    Except String (List String) :=
  runCallbackList (callbacksFor regs cmdId channel)

/-- Model of JavaScript String.prototype.includes on character lists. -/
def charsInclude (pat : List Char) : List Char → Bool
  | [] => pat.isEmpty
  | c :: rest => pat.isPrefixOf (c :: rest) || charsInclude pat rest

/-- Model of JavaScript String.prototype.includes. -/
def strIncludes (s pat : String) : Bool := charsInclude pat.toList s.toList

/-- One alarm event as parseXml extracts it from the parsed cmd_id 33
envelope (part_002 lines 855-866): the channel identifier and the
optional status and AItype strings.  XML parsing itself is done by the
external fast-xml-parser library; the embedding starts at the event
loop, which is where the claims about dispatch live. -/
structure AlarmEvent where
  channelId : Option Int
  status : Option String
  aiType : Option String
  deriving DecidableEq, Repr

/-- The per-channel detection state parseXml mutates: the known channel
list and the motion/visitor/AI maps of the http API sink (part_002
lines 863, 880-913). -/
structure DetectState where
  channels : List Int
  motion : List (Int × Bool)
  visitor : List (Int × Bool)
  ai : List (Int × List (String × Bool))
  deriving DecidableEq, Repr

/-- Shallow embedding of one iteration of parseXml's cmd_id 33 event
loop (part_002 lines 852-919): state updates followed by the two
executeCallbacks invocations, whose combined outcome is returned. -/
def processAlarmEvent (regs : CbRegistry) (st : DetectState) (e : AlarmEvent) :
    DetectState × Except String (List String) :=
  match e.channelId with
  | none => (st, .ok [])
  | some channel =>
    if !(st.channels.contains channel) then (st, .ok [])
    else if e.status.isSome || e.aiType.isSome then
      let st1 := match e.status with
        | some statusStr =>
          let motionState := strIncludes statusStr "MD"
          let visitorState := strIncludes statusStr "visitor"
          { st with
            motion := mapSet channel motionState st.motion
            visitor := mapSet channel visitorState st.visitor }
        | none => st
      let st2 := match e.aiType with
        | some aiTypes =>
          let stA := match st1.ai.find? (fun p => p.1 == channel) with
            | some p =>
              { st1 with
                ai := mapSet channel
                  (p.2.map (fun q => (q.1, strIncludes aiTypes q.1))) st1.ai }
            | none => st1
          let motionNow := mapGetD stA.motion channel false
          if !motionNow && strIncludes aiTypes "other" then
            { stA with motion := mapSet channel true stA.motion }
          else stA
        | none => st1
      let dispatched : Except String (List String) := do
        let ids1 ← executeCallbacks regs (some 33) (some channel)
        let ids2 ← executeCallbacks regs (some 33) none
        pure (ids1 ++ ids2)
      (st2, dispatched)
    else (st, .ok [])

/-- Program counter of one concurrent login() caller, cut at the await
points of part_002 lines 586-614. -/
inductive LoginPc where
  | start
  | awaitMutex
  | acquired
  | sentNonce
  | gotNonce
  | done
  deriving DecidableEq, Repr

/-- One login() caller: its program counter, the loginMutex promise
generation it awaited, and the generation of the replacement promise it
installed. -/
structure LoginCaller where
  pc : LoginPc
  obs : Nat
  gen : Nat
  deriving DecidableEq, Repr

/-- Shared state of the login race model.  `mutexGen` is the generation
of the promise currently stored in this.loginMutex (generation 0, the
initial Promise.resolve(), is already resolved); `resolved` the
generations that have been resolved; `nonceSends`/`loginSends` count
the cmd_id 1 nonce requests and login commands written to the wire. -/
structure LoginSys where
  mutexGen : Nat
  nextGen : Nat
  resolved : List Nat
  loggedIn : Bool
  nonceSends : Nat
  loginSends : Nat
  ca : LoginCaller
  cb : LoginCaller
  deriving DecidableEq, Repr

/-- One resumption of a login() caller, faithful to the source order:
`await this.loginMutex` first captures the current promise and
suspends; on resumption the caller installs a fresh pending promise as
this.loginMutex, then checks loggedIn; if not logged in it proceeds
into getNonce/send, whose next suspension points are the network
awaits; the finally block resolves the installed promise. -/
def loginCallerStep (sys : LoginSys) (c : LoginCaller) : LoginSys × LoginCaller :=
  match c.pc with
  | .start =>
    (sys, { c with pc := .awaitMutex, obs := sys.mutexGen })
  | .awaitMutex =>
    if sys.resolved.contains c.obs then
      let g := sys.nextGen
      let sys1 := { sys with mutexGen := g, nextGen := g + 1 }
      if sys.loggedIn then
        ({ sys1 with resolved := g :: sys1.resolved },
         { c with pc := .done, gen := g })
      else
        (sys1, { c with pc := .acquired, gen := g })
    else (sys, c)
  | .acquired =>
    ({ sys with nonceSends := sys.nonceSends + 1 }, { c with pc := .sentNonce })
  | .sentNonce =>
    ({ sys with loginSends := sys.loginSends + 1 }, { c with pc := .gotNonce })
  | .gotNonce =>
    ({ sys with loggedIn := true, resolved := c.gen :: sys.resolved },
     { c with pc := .done })
  | .done => (sys, c)

/-- Advance the caller selected by `who` (true = first caller). -/
def loginSysStep (sys : LoginSys) (who : Bool) : LoginSys :=
  if who then
    let r := loginCallerStep sys sys.ca
    { r.1 with ca := r.2 }
  else
    let r := loginCallerStep sys sys.cb
    { r.1 with cb := r.2 }

/-- Initial state: fresh client, loginMutex = Promise.resolve() (the
resolved generation 0), both callers about to run login(). -/
def loginInit : LoginSys :=
  { mutexGen := 0, nextGen := 1, resolved := [0], loggedIn := false
    nonceSends := 0, loginSends := 0
    ca := { pc := .start, obs := 0, gen := 0 }
    cb := { pc := .start, obs := 0, gen := 0 } }

/-- Run a schedule of caller resumptions from the initial state. -/
def runLogin (schedule : List Bool) : LoginSys :=
  schedule.foldl loginSysStep loginInit

/-! Concrete fixtures used by the counterexample and witness theorems
below. -/

/-- ASCII decoding of a byte list: what Buffer.toString("utf8") yields
on the all-ASCII payloads of the concrete frames below. -/
def asciiDecode (l : List Nat) : String :=
  String.mk (l.map (fun b => Char.ofNat (b % 128)))

/-- A 20-byte request-class frame header whose encoding field declares
the legacy cipher (bytes 16-17 = 01 dd): magic, cmdId 1, messLen 6,
messId 250, encoding 01dd, class tag. -/
def headerLegacy20 : List Nat :=
  [0xf0, 0xde, 0xbc, 0x0a, 1, 0, 0, 0, 6, 0, 0, 0, 250, 0, 0, 0,
   0x01, 0xdd, 0x14, 0x64]

/-- A received frame declaring the legacy cipher whose payload is
literal plaintext XML. -/
def frameLegacyPlain : List Nat :=
  headerLegacy20 ++ [60, 63, 120, 109, 108, 62]

/-- A cipher context with no AES key whose legacy decode of the payload
above yields garbage (the frame is actually plaintext). -/
def ctxGarbage : DecryptCtx :=
  { bc := fun _ _ => "BCJUNK", aes := none, utf8 := asciiDecode }

/-- A cipher context whose legacy decode yields valid envelope XML. -/
def ctxGood : DecryptCtx :=
  { bc := fun _ _ => "<?xml>ok", aes := none, utf8 := asciiDecode }

/-- An unsubscribed, logged-out session state that still holds session
secrets. -/
def stateNotLoggedIn : BcState :=
  { loggedIn := false, subscribed := false, eventsActive := false,
    keepalive := false, transport := false, protocol := false,
    nonce := some "n", aesKey := some "k", userHash := some "u",
    passwordHash := some "p", timeConnectionLost := 0 }

/-- A fully subscribed, logged-in session state. -/
def stateSubscribed : BcState :=
  { loggedIn := true, subscribed := true, eventsActive := true,
    keepalive := true, transport := true, protocol := true,
    nonce := some "n", aesKey := some "k", userHash := some "u",
    passwordHash := some "p", timeConnectionLost := 0 }

/-- A registry with one callback under (cmd 33, channel 0) and one,
which throws when invoked, under (cmd 33, any channel). -/
def sampleRegs : CbRegistry :=
  registerCallback (registerCallback [] "cbA" (.ok ()) (some 33) (some 0))
    "cbB" (.error "boom") (some 33) none

/-- A detection state knowing channels 0 and 1. -/
def sampleDetect : DetectState :=
  { channels := [0, 1], motion := [(0, false)], visitor := [],
    ai := [(0, [("people", false)])] }

/-- A motion alarm event on channel 0. -/
def sampleEvent : AlarmEvent :=
  { channelId := some 0, status := some "MD,visitor", aiType := some "people" }

/-- A callback that returns normally. -/
def cbStub : Except String Unit := .ok ()

/-!
Theorems.  Each claim of the specification audit is settled by exactly
one theorem below, with a closed witness or counterexample where
required.
-/

/--
C1 (counterexample): the claim that decrypt follows the full ordered
fallback chain (declared cipher, then AES, then legacy, then
plaintext) is false.  For a frame whose header declares the legacy
cipher but whose payload is literal plaintext XML, the spec chain ends
at the plaintext step and succeeds, while the source never attempts the
plaintext step after a declared cipher fails: it re-runs the legacy
cipher and throws UnexpectedDataError.
-/
theorem decrypt_skips_spec_fallbacks :
    decrypt ctxGarbage frameLegacyPlain 20 EncType.AES =
      .error (.unexpectedData headerLegacy20 "BCJUN" [60, 63, 120, 109, 108]) ∧
    specDecryptChain ctxGarbage frameLegacyPlain 20 = .ok "<?xml>" := by
  constructor
  · rfl
  · rfl

/--
C1 (amended): for every received frame with a non-empty payload, any
body decrypt returns begins with the envelope prologue — it never
silently returns a non-prologue body — and when the branch-dependent
decode attempts all fail, the UnexpectedDataError carries the header,
the first 5 characters of the final decode attempt (the legacy decode)
and the first 5 bytes of the encrypted input.  Which fallbacks are
attempted depends on the header: a declared cipher is not followed by
an AES or plaintext attempt, and plaintext is tried only when the
encoding field is 00dd or a 24-byte header has no AES key.
-/
theorem decrypt_prologue_or_diagnostic (ctx : DecryptCtx) (data : List Nat)
    (lenHeader : Nat) (encType : EncType) (s : String) (hd : List Nat)
    (ds : String) (es : List Nat)
    (hne : (data.drop lenHeader).isEmpty = false) :
    (decrypt ctx data lenHeader encType = .ok s → strStartsWith s "<?xml" = true) ∧
    (decrypt ctx data lenHeader encType = .error (.unexpectedData hd ds es) →
      hd = data.take lenHeader ∧
      ds = (ctx.bc (data.drop lenHeader) (readUInt32LE data 12)).take 5 ∧
      es = (data.drop lenHeader).take 5) := by
  constructor
  · intro h
    unfold decrypt at h
    simp only [hne, Bool.false_eq_true, if_false] at h
    split at h
    · exact Except.noConfusion h
    · rename_i r0 heq
      clear heq
      repeat' split at h
      all_goals
        first
          | (rw [Except.ok.injEq] at h; subst h; assumption)
          | exact Except.noConfusion h
  · intro h
    unfold decrypt at h
    simp only [hne, Bool.false_eq_true, if_false] at h
    split at h
    · rename_i e heq
      rw [Except.error.injEq] at h
      subst h
      repeat' split at heq
      all_goals simp_all
    · rename_i r0 heq
      clear heq
      repeat' split at h
      all_goals
        first
          | (rw [Except.error.injEq, DecryptErr.unexpectedData.injEq] at h
             obtain ⟨h1, h2, h3⟩ := h
             exact ⟨h1.symm, h2.symm, h3.symm⟩)
          | exact Except.noConfusion h

/-- C1 (witness): the amended theorem applied to a concrete frame whose
legacy decode yields envelope XML; decrypt returns it and it carries
the prologue. -/
theorem decrypt_prologue_witness :
    decrypt ctxGood frameLegacyPlain 20 EncType.AES = .ok "<?xml>ok" ∧
    strStartsWith "<?xml>ok" "<?xml" = true :=
  have hthm := decrypt_prologue_or_diagnostic ctxGood frameLegacyPlain 20
    EncType.AES "<?xml>ok" [] "" [] (by decide)
  ⟨rfl, hthm.1 rfl⟩

/--
C2 (counterexample): the claim that a device-reported busy status
(ApiError 400) is always retried is false — the retry is gated by the
same budget as the others.  With the default budget of 3 and a device
that always answers 400, exactly 3 attempts happen and the third 400
surfaces to the caller instead of being retried.
-/
theorem send_busy_not_always_retried :
    sendSim (fun _ => .error { isApi := true, rspCode := 400 }) 1 RETRY_ATTEMPTS 0 =
      (3, .error { isApi := true, rspCode := 400 }) := by
  decide

/-- No retry branch of Baichuan.send fires once the decremented budget
reaches zero: every branch requires a positive budget. -/
theorem shouldRetry_zero (e : SendErr) (cmdId : Nat) :
    shouldRetry e 0 cmdId = false := by
  unfold shouldRetry
  simp

/-- A successful awaited response returns after a single attempt. -/
theorem sendSim_ok (out : Nat → Except SendErr String) (cmdId retry attempt : Nat)
    (d : String) (hok : out attempt = .ok d) :
    sendSim out cmdId retry attempt = (1, .ok d) := by
  cases retry with
  | zero => rw [sendSim, hok]
  | succ r => rw [sendSim, hok]

/-- A failure the catch block does not retry surfaces unchanged after a
single attempt. -/
theorem sendSim_noRetry (out : Nat → Except SendErr String)
    (cmdId retry attempt : Nat) (e : SendErr) (herr : out attempt = .error e)
    (hsr : shouldRetry e (retry - 1) cmdId = false) :
    sendSim out cmdId retry attempt = (1, .error e) := by
  cases retry with
  | zero => rw [sendSim, herr]
  | succ r =>
    rw [sendSim, herr]
    simp only [Nat.succ_sub_one] at hsr
    simp [hsr]

/-- A retryable failure re-invokes send with the same arguments and the
decremented budget, adding one attempt. -/
theorem sendSim_retryStep (out : Nat → Except SendErr String)
    (cmdId retry attempt : Nat) (e : SendErr) (herr : out attempt = .error e)
    (hsr : shouldRetry e (retry - 1) cmdId = true) :
    sendSim out cmdId retry attempt =
      ((sendSim out cmdId (retry - 1) (attempt + 1)).1 + 1,
       (sendSim out cmdId (retry - 1) (attempt + 1)).2) := by
  cases retry with
  | zero =>
    rw [shouldRetry_zero] at hsr
    exact absurd hsr (by simp)
  | succ r =>
    rw [sendSim, herr]
    simp only [Nat.succ_sub_one] at hsr
    simp [hsr]

/-- Under a persistently timing-out device and a non-logout command, the
whole budget is consumed: max(retry, 1) attempts, then the timeout
surfaces. -/
theorem sendSim_timeout_exhaust (out : Nat → Except SendErr String) (cmdId : Nat)
    (hne : cmdId ≠ 2) (hall : ∀ n, out n = .error { isTimeout := true }) :
    ∀ retry attempt, sendSim out cmdId retry attempt =
      (max retry 1, .error { isTimeout := true }) := by
  intro retry
  induction retry with
  | zero =>
    intro attempt
    rw [sendSim, hall attempt]
    simp
  | succ r ih =>
    intro attempt
    cases r with
    | zero =>
      rw [sendSim, hall attempt]
      simp [shouldRetry_zero]
    | succ r2 =>
      have hsr : shouldRetry { isTimeout := true } (r2 + 1) cmdId = true := by
        simp [shouldRetry, hne]
      rw [sendSim, hall attempt]
      simp only [hsr, if_true, ih (attempt + 1)]
      rw [Prod.mk.injEq]
      refine ⟨by omega, rfl⟩


/--
C2 (amended): Baichuan.send's retry policy as implemented: a success
returns after one attempt; a failure the catch block does not accept is
returned after one attempt; an accepted failure re-invokes send with
the same arguments and the decremented budget; the accepted failures
are exactly an ApiError 400 while budget remains, and a timeout or an
error whose message mentions Connection while budget remains and the
command is not logout (cmdId 2).  Consequently, with the default budget
of 3 a persistent timeout on a non-logout command performs exactly 3
attempts and then surfaces the timeout, and a timeout on the logout
command is never retried.
-/
theorem send_retry_policy :
    (∀ out cmdId retry attempt d, out attempt = Except.ok d →
      sendSim out cmdId retry attempt = (1, Except.ok d)) ∧
    (∀ out cmdId retry attempt e, out attempt = Except.error e →
      shouldRetry e (retry - 1) cmdId = false →
      sendSim out cmdId retry attempt = (1, Except.error e)) ∧
    (∀ out cmdId retry attempt e, out attempt = Except.error e →
      shouldRetry e (retry - 1) cmdId = true →
      sendSim out cmdId retry attempt =
        ((sendSim out cmdId (retry - 1) (attempt + 1)).1 + 1,
         (sendSim out cmdId (retry - 1) (attempt + 1)).2)) ∧
    (∀ e retry cmdId, shouldRetry e retry cmdId = true →
      (e.isApi = true ∧ e.rspCode = 400 ∧ 0 < retry) ∨
      ((e.isTimeout = true ∨ e.msgHasConnection = true) ∧ 0 < retry ∧ cmdId ≠ 2)) ∧
    (∀ out cmdId attempt, (∀ n, out n = Except.error { isTimeout := true }) →
      cmdId ≠ 2 →
      sendSim out cmdId RETRY_ATTEMPTS attempt =
        (3, Except.error { isTimeout := true })) ∧
    (∀ out retry attempt, out attempt = Except.error { isTimeout := true } →
      sendSim out 2 retry attempt = (1, Except.error { isTimeout := true })) := by
  refine ⟨sendSim_ok, sendSim_noRetry, sendSim_retryStep, ?_, ?_, ?_⟩
  · intro e retry cmdId h
    unfold shouldRetry at h
    split at h
    · rename_i hc
      simp only [Bool.and_eq_true, decide_eq_true_eq, beq_iff_eq] at hc
      exact Or.inl ⟨hc.1.1, hc.1.2, hc.2⟩
    · split at h
      · rename_i hc
        simp only [Bool.and_eq_true, decide_eq_true_eq, bne_iff_ne] at hc
        exact Or.inr ⟨Or.inl hc.1.1, hc.1.2, hc.2⟩
      · split at h
        · rename_i hc
          simp only [Bool.and_eq_true, decide_eq_true_eq, bne_iff_ne] at hc
          exact Or.inr ⟨Or.inr hc.1.1, hc.1.2, hc.2⟩
        · exact absurd h (by simp)
  · intro out cmdId attempt hall hne
    have h := sendSim_timeout_exhaust out cmdId hne hall RETRY_ATTEMPTS attempt
    simpa using h
  · intro out retry attempt h
    exact sendSim_noRetry out 2 retry attempt _ h (by simp [shouldRetry])

/-- C2 (witness): the amended theorem applied to a persistently
timing-out keepalive command (cmdId 93) with the default budget. -/
theorem send_retry_policy_witness :
    sendSim (fun _ => .error { isTimeout := true }) 93 RETRY_ATTEMPTS 0 =
      (3, .error { isTimeout := true }) :=
  send_retry_policy.2.2.2.2.1 (fun _ => .error { isTimeout := true }) 93 0
    (fun _ => rfl) (by decide)
/--
C3: the 24-byte response-class header layout is exactly as claimed —
magic f0debc0a, little-endian cmdId / payload length / sequenceId,
2-byte zero status, class tag 14 64, little-endian payload offset —
but the payload-length and payload-offset values written are the
JavaScript string lengths of extension and body (line 248), not the
encrypted byte lengths: for the one-character body "é" the field says 1
while both ciphers emit its 2 UTF-8 bytes, so the claimed invariant
payloadLength == encryptedExtensionLength + encryptedBodyLength is
violated by the code (a framing bug for any non-ASCII body).
-/
theorem send_header_layout_and_length_bug :
    (∀ cmdId messLen messId payloadOffset : Nat,
      (header1464 cmdId messLen messId payloadOffset).length = 24 ∧
      (header1464 cmdId messLen messId payloadOffset).take 4 =
        [0xf0, 0xde, 0xbc, 0x0a] ∧
      readUInt32LE (header1464 cmdId messLen messId payloadOffset) 4 =
        cmdId % 4294967296 ∧
      readUInt32LE (header1464 cmdId messLen messId payloadOffset) 8 =
        messLen % 4294967296 ∧
      readUInt32LE (header1464 cmdId messLen messId payloadOffset) 12 =
        messId % 4294967296 ∧
      byteAt (header1464 cmdId messLen messId payloadOffset) 16 = 0 ∧
      byteAt (header1464 cmdId messLen messId payloadOffset) 17 = 0 ∧
      byteAt (header1464 cmdId messLen messId payloadOffset) 18 = 0x14 ∧
      byteAt (header1464 cmdId messLen messId payloadOffset) 19 = 0x64 ∧
      readUInt32LE (header1464 cmdId messLen messId payloadOffset) 20 =
        payloadOffset % 4294967296) ∧
    (readUInt32LE (header1464 1 (messLenOf "" "é") 250 (payloadOffsetOf "")) 8 = 1 ∧
      encryptedLen "" + encryptedLen "é" = 2) := by
  constructor
  · intro cmdId messLen messId payloadOffset
    refine ⟨?_, ?_, ?_, ?_, ?_, ?_, ?_, ?_, ?_, ?_⟩ <;>
      simp [header1464, u32le, byteAt, readUInt32LE] <;> omega
  · constructor
    · decide
    · decide

/-- A hex-encoded byte is two characters. -/
theorem byteHexU_length (b : Nat) : (byteHexU b).length = 2 := rfl

/-- Hex encoding doubles the byte count. -/
theorem hexFoldU_length (l : List Nat) :
    (l.foldr (fun b acc => byteHexU b ++ acc) "").length = 2 * l.length := by
  induction l with
  | nil => rfl
  | cons b rest ih =>
    simp only [List.foldr_cons, String.length_append, ih, byteHexU_length,
      List.length_cons]
    ring

/-- An MD5 digest is 16 bytes for every message. -/
theorem md5Bytes_length (msg : List Nat) : (md5Bytes msg).length = 16 := by
  simp [md5Bytes, u32le]

/-- The keyed hash string is 32 hex characters for every input. -/
theorem md5StrModern_length (s : String) : (md5StrModern s).length = 32 := by
  unfold md5StrModern
  rw [hexFoldU_length, md5Bytes_length]

/-- Length of String.take (the model of slice(0, n)). -/
theorem strTake_length (s : String) (n : Nat) : (s.take n).length = min n s.length := by
  show (s.take n).data.length = _
  rw [String.data_take]
  simp [List.length_take]


/--
C4: the AES key established by the nonce handshake is the first 16
bytes (16 ASCII hex characters) of the keyed hash of
nonce ++ "-" ++ password, and the derivation is a deterministic
function of the (nonce, password) pair: equal inputs always yield the
same 16-character key.
-/
theorem aes_key_derivation (nonce password n2 p2 : String)
    (hn : n2 = nonce) (hp : p2 = password) :
    deriveAesKey nonce password = (md5StrModern (nonce ++ "-" ++ password)).take 16 ∧
    (deriveAesKey nonce password).length = 16 ∧
    deriveAesKey n2 p2 = deriveAesKey nonce password := by
  refine ⟨rfl, ?_, by rw [hn, hp]⟩
  unfold deriveAesKey
  rw [strTake_length, md5StrModern_length]
  rfl

set_option maxRecDepth 8000 in
/-- C4 (witness): the derivation evaluated at the literal regression
pair (nonce "abc", password "secret") yields the fixed 16-byte key
"7CDA39F6ABEF5A93" (the first 16 hex digits of the MD5 of
"abc-secret"), with the theorem instantiated at that pair. -/
theorem aes_key_derivation_witness :
    deriveAesKey "abc" "secret" = "7CDA39F6ABEF5A93" ∧
    (deriveAesKey "abc" "secret").length = 16 ∧
    deriveAesKey "abc" "secret" = deriveAesKey "abc" "secret" :=
  have h := aes_key_derivation "abc" "secret" "abc" "secret" rfl rfl
  ⟨by decide, h.2.1, h.2.2⟩

/--
C5 (counterexample): the claim that every unsubscribed logout sends the
logout command best-effort is false: in an unsubscribed but not
logged-in state, logout sends nothing and closes nothing (the guard at
line 705 requires loggedIn and a live transport/protocol), although it
still clears the session secrets.
-/
theorem logout_skips_send_when_not_logged_in :
    (logout stateNotLoggedIn).2 = [] ∧
    (logout stateNotLoggedIn).1.nonce = none := by decide

/--
C5 (amended): while a subscription is active logout refuses to
proceed — no logout command, no transport close, state unchanged.
Otherwise it clears the nonce, AES key and both credential hashes,
marks the session logged out and events inactive, drops the
transport/protocol references, and sends the best-effort logout command
and closes the transport exactly when the session was logged in with a
live transport and protocol.
-/
theorem logout_behavior (s : BcState) :
    (s.subscribed = true → logout s = (s, [])) ∧
    (s.subscribed = false →
      (logout s).1.loggedIn = false ∧
      (logout s).1.eventsActive = false ∧
      (logout s).1.transport = false ∧
      (logout s).1.protocol = false ∧
      (logout s).1.nonce = none ∧
      (logout s).1.aesKey = none ∧
      (logout s).1.userHash = none ∧
      (logout s).1.passwordHash = none ∧
      (logout s).1.subscribed = s.subscribed ∧
      (logout s).1.keepalive = s.keepalive ∧
      (logout s).1.timeConnectionLost = s.timeConnectionLost ∧
      (s.loggedIn = true ∧ s.transport = true ∧ s.protocol = true →
        (logout s).2 = [LogoutEffect.sendLogout, LogoutEffect.closeTransport]) ∧
      (¬(s.loggedIn = true ∧ s.transport = true ∧ s.protocol = true) →
        (logout s).2 = [])) := by
  constructor
  · intro h
    simp [logout, h]
  · intro h
    simp only [logout, h, Bool.false_eq_true, if_false]
    refine ⟨?_, ?_, ?_, ?_, ?_, ?_, ?_, ?_, ?_, ?_, ?_, ?_, ?_⟩
    all_goals try trivial
    · intro ⟨h1, h2, h3⟩
      simp [h1, h2, h3]
    · intro hno
      have hb : (s.loggedIn && s.transport && s.protocol) = false := by
        cases hcond : (s.loggedIn && s.transport && s.protocol)
        · rfl
        · simp only [Bool.and_eq_true] at hcond
          exact (hno ⟨hcond.1.1, hcond.1.2, hcond.2⟩).elim
      simp [hb]

/-- C5 (witness): the amended theorem applied to a subscribed state:
logout is a guarded no-op there. -/
theorem logout_behavior_witness :
    logout stateSubscribed = (stateSubscribed, []) :=
  (logout_behavior stateSubscribed).1 rfl

/--
C6: in every state satisfying the subscription invariant — the
keepalive timer runs iff subscribed, and eventsActive only while
subscribed — each operation that touches this state (subscribeEvents
under both login outcomes, unsubscribeEvents, the connection-close
callback, logout, and the push parser's flag update) yields a state
satisfying the invariant again.
-/
theorem subscription_invariant (s : BcState) (now : Int) (loginOk : Bool)
    (hInv : SubInv s) :
    SubInv (subscribeEvents s loginOk) ∧
    SubInv (unsubscribeEvents s).1 ∧
    SubInv (closeCallback s now) ∧
    SubInv (logout s).1 ∧
    SubInv (parseXmlFlags s) := by
  unfold SubInv subscribeEvents unsubscribeEvents closeCallback logout
    parseXmlFlags at *
  rcases s with ⟨li, sub, ea, ka, tr, pr, no, ak, uh, ph, tcl⟩
  simp only at *
  cases sub <;> cases ka <;> cases ea <;> cases loginOk <;> cases tr <;> simp_all

/-- C6 (witness): the invariant theorem applied to a concrete
subscribed state that satisfies the invariant. -/
theorem subscription_invariant_witness :
    SubInv (subscribeEvents stateSubscribed true) ∧
    SubInv (unsubscribeEvents stateSubscribed).1 ∧
    SubInv (closeCallback stateSubscribed 0) ∧
    SubInv (logout stateSubscribed).1 ∧
    SubInv (parseXmlFlags stateSubscribed) :=
  subscription_invariant stateSubscribed 0 true ⟨rfl, fun _ => rfl⟩

/-- Looking up the key just set in a JS-Map-style association list
yields the value set. -/
theorem mapGetD_mapSet_self {α β : Type} [BEq α] [LawfulBEq α]
    (l : List (α × β)) (k : α) (v d : β) :
    mapGetD (mapSet k v l) k d = v := by
  induction l with
  | nil => simp [mapSet, mapGetD]
  | cons p rest ih =>
    unfold mapSet
    by_cases h : (p.1 == k) = true
    · simp [mapGetD, h]
    · rw [if_neg (by simp_all)]
      unfold mapGetD
      rw [List.find?]
      simp only [h]
      exact ih

/-- The executeCallbacks loop never lets an exception escape and
invokes every entry, in order, whatever each callback's outcome. -/
theorem runCallbackList_ok (l : List (String × Except String Unit)) :
    runCallbackList l = .ok (l.map Prod.fst) := by
  induction l with
  | nil => rfl
  | cons p rest ih =>
    cases p with
    | mk id outcome =>
      cases outcome <;> simp [runCallbackList, ih]

/-- executeCallbacks returns the ids of precisely the callbacks
registered under the exact (cmdId, channel) key, in insertion order. -/
theorem executeCallbacks_ok (regs : CbRegistry) (cmdId : Option Nat)
    (channel : Option Int) :
    executeCallbacks regs cmdId channel =
      .ok ((callbacksFor regs cmdId channel).map Prod.fst) :=
  runCallbackList_ok _


/--
C7: for a cmd_id 33 push event whose channel is known and whose status
string contains the motion marker "MD", the dispatch loop sets that
channel's motion flag to true and invokes exactly the callbacks
registered for (33, that channel) followed by those registered for
(33, any channel); an event whose channel is not a known channel leaves
the detection state unchanged and invokes no callbacks.
-/
theorem push_motion_dispatch (regs : CbRegistry) (st : DetectState)
    (e : AlarmEvent) (ch : Int) (statusStr : String)
    (hch : e.channelId = some ch) :
    (st.channels.contains ch = true → e.status = some statusStr →
      strIncludes statusStr "MD" = true →
      mapGetD (processAlarmEvent regs st e).1.motion ch false = true ∧
      (processAlarmEvent regs st e).2 =
        .ok ((callbacksFor regs (some 33) (some ch)).map Prod.fst ++
          (callbacksFor regs (some 33) none).map Prod.fst)) ∧
    (st.channels.contains ch = false →
      processAlarmEvent regs st e = (st, .ok [])) := by
  constructor
  · intro hknown hstatus hmd
    unfold processAlarmEvent
    rw [hch]
    simp only [hknown, Bool.not_true, Bool.false_eq_true, if_false, hstatus,
      Option.isSome_some, Bool.true_or, if_true, hmd]
    constructor
    · cases hai : e.aiType with
      | none => simp [mapGetD_mapSet_self]
      | some aiTypes =>
        cases hfind : List.find? (fun p => p.1 == ch) st.ai with
        | none => simp [hfind, mapGetD_mapSet_self]
        | some p => simp [hfind, mapGetD_mapSet_self]
    · rw [executeCallbacks_ok, executeCallbacks_ok]
      rfl
  · intro hunknown
    unfold processAlarmEvent
    rw [hch]
    simp only [hunknown, Bool.not_false, if_true]


/-- C7 (witness): the dispatch theorem applied to a concrete registry,
detection state and event with status "MD,visitor" on channel 0. -/
theorem push_motion_dispatch_witness :
    mapGetD (processAlarmEvent sampleRegs sampleDetect sampleEvent).1.motion 0 false = true ∧
    (processAlarmEvent sampleRegs sampleDetect sampleEvent).2 =
      .ok ((callbacksFor sampleRegs (some 33) (some 0)).map Prod.fst ++
        (callbacksFor sampleRegs (some 33) none).map Prod.fst) :=
  (push_motion_dispatch sampleRegs sampleDetect sampleEvent 0 "MD,visitor" rfl).1
    (by decide) rfl (by decide)

/-- Lookup after a JS-Map set: the set key reads back the new value,
every other key is unaffected. -/
theorem mapGetD_mapSet {α β : Type} [BEq α] [LawfulBEq α] [DecidableEq α]
    (l : List (α × β)) (k k2 : α) (v d : β) :
    mapGetD (mapSet k v l) k2 d = if k2 = k then v else mapGetD l k2 d := by
  induction l with
  | nil =>
    by_cases hk : k2 = k
    · subst hk
      simp [mapSet, mapGetD, List.find?]
    · have hb : (k == k2) = false := by
        rw [beq_eq_false_iff_ne]
        exact fun h => hk h.symm
      simp [mapSet, mapGetD, List.find?, hb, hk]
  | cons p rest ih =>
    by_cases hp : p.1 = k
    · have hb : (p.1 == k) = true := by simp [hp]
      simp only [mapSet, hb, if_true]
      by_cases hk : k2 = k
      · subst hk
        have hb2 : (p.1 == k2) = true := by simp [hp]
        simp [mapGetD, List.find?, hb2]
      · have hb2 : (p.1 == k2) = false := by
          rw [beq_eq_false_iff_ne, hp]
          exact fun h => hk h.symm
        unfold mapGetD
        simp only [List.find?, hb2, if_neg hk]
    · have hb : (p.1 == k) = false := by
        rw [beq_eq_false_iff_ne]
        exact hp
      simp only [mapSet, hb, Bool.false_eq_true, if_false]
      by_cases hp2 : p.1 = k2
      · have hb2 : (p.1 == k2) = true := by simp [hp2]
        have hk : ¬k2 = k := by
          rw [← hp2]
          exact fun h => hp h
        unfold mapGetD
        simp only [List.find?, hb2, if_neg hk]
      · have hb2 : (p.1 == k2) = false := by
          rw [beq_eq_false_iff_ne]
          exact hp2
        unfold mapGetD at ih ⊢
        simp only [List.find?, hb2]
        exact ih


/-- JS-Map set either keeps the key list (overwrite) or appends the new
key at the end. -/
theorem mapSet_keys {α β : Type} [BEq α] [LawfulBEq α] [DecidableEq α]
    (l : List (α × β)) (k : α) (v : β) :
    (mapSet k v l).map Prod.fst =
      if k ∈ l.map Prod.fst then l.map Prod.fst
      else l.map Prod.fst ++ [k] := by
  induction l with
  | nil => simp [mapSet]
  | cons p rest ih =>
    by_cases hp : p.1 = k
    · have hb : (p.1 == k) = true := by simp [hp]
      simp only [mapSet, hb, if_true, List.map_cons]
      rw [if_pos]
      simp [hp]
    · have hb : (p.1 == k) = false := by
        rw [beq_eq_false_iff_ne]
        exact hp
      simp only [mapSet, hb, Bool.false_eq_true, if_false, List.map_cons, ih]
      by_cases hm : k ∈ rest.map Prod.fst
      · rw [if_pos hm, if_pos (by simp [hm])]
      · have hnc : k ∉ (p.1 :: rest.map Prod.fst) := by
          simp only [List.mem_cons]
          rintro (h | h)
          · exact hp h.symm
          · exact hm h
        rw [if_neg hm, if_neg hnc]
        simp

/-- JS-Map set preserves distinctness of keys. -/
theorem mapSet_keys_nodup {α β : Type} [BEq α] [LawfulBEq α] [DecidableEq α]
    (l : List (α × β)) (k : α) (v : β)
    (h : (l.map Prod.fst).Nodup) : ((mapSet k v l).map Prod.fst).Nodup := by
  rw [mapSet_keys]
  split
  · exact h
  · rename_i hm
    rw [List.nodup_append]
    exact ⟨h, List.nodup_singleton k, by simp [hm]⟩


/--
C10: during one dispatch for a key, every callback registered under
that (cmdId, channel) key is invoked exactly once (given the Map
invariant that ids under a key are distinct, which registerCallback
preserves), and a thrown callback exception is swallowed by the
per-callback catch: it neither stops the remaining callbacks (the
returned id list is always the full registered list) nor propagates
out (the result is never an error).  registerCallback leaves every
other key's callbacks untouched.
-/
theorem callbacks_exactly_once (regs : CbRegistry) (cmdId c2 c3 : Option Nat)
    (channel ch2 ch3 : Option Int) (callbackId : String) (cb : Except String Unit)
    (msg : String)
    (hnodup : ((callbacksFor regs cmdId channel).map Prod.fst).Nodup)
    (hnodup2 : ((callbacksFor regs c2 ch2).map Prod.fst).Nodup)
    (hdiff : c3 ≠ c2 ∨ ch3 ≠ ch2) :
    executeCallbacks regs cmdId channel =
      .ok ((callbacksFor regs cmdId channel).map Prod.fst) ∧
    (callbackId ∈ (callbacksFor regs cmdId channel).map Prod.fst →
      ((callbacksFor regs cmdId channel).map Prod.fst).count callbackId = 1) ∧
    executeCallbacks regs cmdId channel ≠ .error msg ∧
    ((callbacksFor (registerCallback regs callbackId cb c2 ch2) c2 ch2).map
      Prod.fst).Nodup ∧
    callbacksFor (registerCallback regs callbackId cb c2 ch2) c3 ch3 =
      callbacksFor regs c3 ch3 := by
  refine ⟨executeCallbacks_ok regs cmdId channel, ?_, ?_, ?_, ?_⟩
  · intro hmem
    exact List.count_eq_one_of_mem hnodup hmem
  · intro h
    rw [executeCallbacks_ok] at h
    exact Except.noConfusion h
  · unfold registerCallback callbacksFor
    rw [mapGetD_mapSet, if_pos rfl, mapGetD_mapSet, if_pos rfl]
    exact mapSet_keys_nodup _ _ _ hnodup2
  · unfold registerCallback callbacksFor
    rw [mapGetD_mapSet]
    by_cases h1 : c3 = c2
    · subst h1
      rw [if_pos rfl, mapGetD_mapSet]
      have h2 : ch3 ≠ ch2 := by
        rcases hdiff with h | h
        · exact absurd rfl h
        · exact h
      rw [if_neg h2]
    · rw [if_neg h1]

/-- C10 (witness): the theorem applied to a concrete registry holding a
throwing callback under (33, channel 0) and a normal one under
(33, any). -/
theorem callbacks_exactly_once_witness :
    executeCallbacks sampleRegs (some 33) none =
      .ok ((callbacksFor sampleRegs (some 33) none).map Prod.fst) ∧
    ("cbB" ∈ (callbacksFor sampleRegs (some 33) none).map Prod.fst →
      ((callbacksFor sampleRegs (some 33) none).map Prod.fst).count "cbB" = 1) ∧
    executeCallbacks sampleRegs (some 33) none ≠ .error "boom" ∧
    ((callbacksFor (registerCallback sampleRegs "cbB" cbStub (some 33) (some 0))
      (some 33) (some 0)).map Prod.fst).Nodup ∧
    callbacksFor (registerCallback sampleRegs "cbB" cbStub (some 33) (some 0))
      (some 33) none = callbacksFor sampleRegs (some 33) none :=
  callbacks_exactly_once sampleRegs (some 33) (some 33) (some 33) none (some 0)
    none "cbB" cbStub "boom" (by decide) (by decide) (by decide)

/--
C8: the eventsActive health getter returns true only if the events
flag is set and more than 120 seconds have elapsed since the last
recorded connection loss; and in any state reached by the
connection-close callback while subscribed, the getter returns false at
every later time even though the subscription flag is still set.
-/
theorem events_active_health (s : BcState) (now now2 : Int)
    (hsub : s.subscribed = true) :
    (eventsActiveValue s now = true →
      s.eventsActive = true ∧ now - s.timeConnectionLost > 120) ∧
    ((closeCallback s now).subscribed = true ∧
      eventsActiveValue (closeCallback s now) now2 = false) := by
  refine ⟨?_, ?_, ?_⟩
  · intro h
    unfold eventsActiveValue at h
    simp only [Bool.and_eq_true, decide_eq_true_eq] at h
    exact h
  · simp [closeCallback, hsub]
  · simp [closeCallback, eventsActiveValue]

/-- C8 (witness): the health-predicate theorem applied to a concrete
subscribed state losing its connection at t=1000. -/
theorem events_active_health_witness :
    (eventsActiveValue stateSubscribed 1000 = true →
      stateSubscribed.eventsActive = true ∧
      1000 - stateSubscribed.timeConnectionLost > 120) ∧
    ((closeCallback stateSubscribed 1000).subscribed = true ∧
      eventsActiveValue (closeCallback stateSubscribed 1000) 2000 = false) :=
  events_active_health stateSubscribed 1000 2000 rfl

/--
C9: two login() callers that both await the initially-resolved
loginMutex before either replaces it (possible whenever both calls
start in the same tick, because the source awaits the mutex first and
installs its replacement only afterwards) both pass the guard and both
perform the full handshake: two nonce requests and two login commands
reach the wire, where the claim requires exactly one.  A fully
serialized schedule, by contrast, performs one handshake and the late
caller sees loggedIn and returns.
-/
theorem login_race_double_handshake :
    ((runLogin [true, false, true, false, true, false, true, false]).nonceSends = 2 ∧
      (runLogin [true, false, true, false, true, false, true, false]).loginSends = 2) ∧
    ((runLogin [true, true, true, true, true, false, false]).nonceSends = 1 ∧
      (runLogin [true, true, true, true, true, false, false]).loginSends = 1) := by
  decide

end Reolink
